import Mathlib

/-!
# Verification of the SkyGen weather dashboard's request/error layer

Shallow embedding of the repository's request/response orchestration and
error-taxonomy layer:

* `src/services/weatherService.ts` — the two fetch wrappers and their
  HTTP-status-to-error mapping (`getWeatherByCity`, `getWeatherByCoords`);
* `src/services/geminiService.ts` (unnamed part_001) — AI insight
  generation (`generateWeatherInsight`);
* `src/App.tsx` — the UI state machine (`fetchWeather`,
  `fetchWeatherByLocation`, `handleSearch`, `handleGetInsight`), embedded
  as an event-step function over an explicit state record.  Each event is
  either a synchronous user-handler run up to its first await point, or
  the synchronous resolution block of a pending asynchronous request;
  pending requests are tracked in the state so that the interleavings the
  browser's event loop allows are exactly the runs of the step function.
-/

set_option linter.unusedVariables false

namespace WeatherApp

/-- Decidable equality for `Except`, needed to evaluate concrete runs. -/
instance {ε α : Type} [DecidableEq ε] [DecidableEq α] : DecidableEq (Except ε α) := by
  intro x y
  cases x <;> cases y
  case error.error a b =>
    exact if h : a = b then .isTrue (by rw [h]) else .isFalse (fun hc => h (by cases hc; rfl))
  case ok.ok a b =>
    exact if h : a = b then .isTrue (by rw [h]) else .isFalse (fun hc => h (by cases hc; rfl))
  case error.ok a b => exact .isFalse (fun hc => Except.noConfusion hc)
  case ok.error a b => exact .isFalse (fun hc => Except.noConfusion hc)

/-! ## Data model (`src/types.ts`, fields as used by the app) -/

/-- One element of the `weather` array of an OpenWeather response:
sky-condition description and icon identifier. -/
structure WeatherCondition where
  description : String
  icon : String
deriving DecidableEq, Repr

/-- The `sys` sub-object: country code. -/
structure WeatherSys where
  country : String
deriving DecidableEq, Repr

/-- The `main` sub-object: temperature, feels-like temperature, humidity. -/
structure WeatherMain where
  temp : Int
  feels_like : Int
  humidity : Int
deriving DecidableEq, Repr

/-- The `wind` sub-object: wind speed. -/
structure WeatherWind where
  speed : Int
deriving DecidableEq, Repr

/-- A weather snapshot as parsed from the provider's JSON body
(the fields the application reads). -/
structure WeatherData where
  name : String
  sys : WeatherSys
  main : WeatherMain
  wind : WeatherWind
  weather : List WeatherCondition
deriving DecidableEq, Repr

/-- The structured AI reply: summary, outfit advice, fun fact. -/
structure GeminiInsight where
  summary : String
  outfitAdvice : String
  funFact : String
deriving DecidableEq, Repr

/-! ## Weather client (`src/services/weatherService.ts`)

The HTTP layer is abstracted by passing the provider's response as an
argument: `status` and `statusText` drive the error mapping, `body` is
what `response.json()` would yield on the success path (the source does
not validate its shape). -/

/-- An HTTP response from the weather provider. -/
structure HttpResponse where
  status : Nat
  statusText : String
  body : WeatherData
deriving DecidableEq, Repr

/-- The Fetch-standard `response.ok`: status in the range 200–299. -/
def HttpResponse.ok (r : HttpResponse) : Bool :=
  200 ≤ r.status && r.status < 300

/-- `getWeatherByCity` from weatherService.ts: missing key fails at once;
otherwise 404 maps to the city-not-found error, 401 to the
invalid-key error, any other non-ok status to the generic provider
error carrying the status text. -/
def getWeatherByCity (city : String) (apiKey : String) (response : HttpResponse) :
    Except String WeatherData :=
  if apiKey = "" then .error "OpenWeather API Key is missing."
  else if response.ok then .ok response.body
  else if response.status = 404 then .error "City not found. Please try again."
  else if response.status = 401 then .error "Invalid OpenWeather API Key."
  else .error ("Weather API Error: " ++ response.statusText)

/-- `getWeatherByCoords` from weatherService.ts: same as the city path
except there is no 404 case — a 404 falls through to the generic
provider error. -/
def getWeatherByCoords (lat lon : Int) (apiKey : String) (response : HttpResponse) :
    Except String WeatherData :=
  if apiKey = "" then .error "OpenWeather API Key is missing."
  else if response.ok then .ok response.body
  else if response.status = 401 then .error "Invalid OpenWeather API Key."
  else .error ("Weather API Error: " ++ response.statusText)

/-! ## Insight generator (`src/services/geminiService.ts`)

The SDK call is abstracted by its outcome: the promise either resolves
with a response whose `text` is absent, empty or some string, or rejects
with a cause.  `JSON.parse` is an abstract parameter.  The function's
observable outcome is the value returned / error thrown to the caller
plus the list of console-error log entries. -/

/-- Outcome of the `ai.models.generateContent` promise: it resolves with
a response text (possibly absent) or rejects with a cause. -/
inductive GenerateContentResult where
  | resolves (text : Option String)
  | rejects (cause : String)
deriving DecidableEq, Repr

/-- What `generateWeatherInsight` produces: the value/error seen by the
caller, and the console-error entries emitted. -/
structure InsightOutcome where
  result : Except String GeminiInsight
  log : List String
deriving DecidableEq, Repr

/-- Module-level client construction in geminiService.ts: the client
exists exactly when the environment key is a non-empty string. -/
def mkAiClient (apiKeyEnv : Option String) : Option Unit :=
  match apiKeyEnv with
  | none => none
  | some k => if k = "" then none else some ()

/-- The body of the try-block in `generateWeatherInsight`: a rejected
call propagates its cause; an absent or empty response text raises the
internal no-response error; otherwise the text is JSON-parsed. -/
def insightTryBody (call : GenerateContentResult)
    (jsonParse : String → Except String GeminiInsight) : Except String GeminiInsight :=
  match call with
  | .rejects cause => .error cause
  | .resolves none => .error "No response from Gemini"
  | .resolves (some t) =>
      if t = "" then .error "No response from Gemini" else jsonParse t

/-- `generateWeatherInsight` from geminiService.ts: with no client the
missing-key error is thrown before the try-block (hence never rewrapped
and never logged); with a client, any error escaping the try-block is
logged with its cause and rewrapped into the fixed generation-failure
message. -/
def generateWeatherInsight (ai : Option Unit) (weather : WeatherData)
    (call : GenerateContentResult)
    (jsonParse : String → Except String GeminiInsight) : InsightOutcome :=
  match ai with
  | none => ⟨.error "Gemini API Key is missing. Insight features are disabled.", []⟩
  | some _ =>
      match insightTryBody call jsonParse with
      | .ok insight => ⟨.ok insight, []⟩
      | .error cause =>
          ⟨.error "Failed to generate AI insight.", ["Gemini Insight Error: " ++ cause]⟩

/-- Sample snapshot (the spec's §8 London example). -/
def londonWeather : WeatherData :=
  { name := "London"
    sys := { country := "GB" }
    main := { temp := 15, feels_like := 14, humidity := 80 }
    wind := { speed := 3 }
    weather := [{ description := "light rain", icon := "10d" }] }

/-- Sample insight value used in concrete runs. -/
def sampleInsight : GeminiInsight :=
  { summary := "Grey but gentle.", outfitAdvice := "Bring a light raincoat.",
    funFact := "Drizzle drops fall slower than rain." }

/-- A stub JSON parser used only to instantiate concrete runs. -/
def stubParse : String → Except String GeminiInsight :=
  fun _ => .error "Unexpected token"

/-! ## UI state machine (`src/App.tsx`)

The component's state hooks become one record; each asynchronous request
in flight is a pending-request marker.  An `Event` is either a user
handler run synchronously up to its first await (`submitSearch`,
`clickUseLocation`, `clickGetInsight`, `setCityInput`) or the
synchronous continuation of a pending request (`resolveCityLookup`,
`geoPositionSuccess`/`geoPositionFailure`, `resolveCoordsLookup`,
`resolveInsight`).  `step` returns `none` when the event has no matching
pending request. -/

/-- A request in flight: the city-name fetch, the one-shot geolocation
query, the coordinate fetch started by its success callback, or the AI
insight call. -/
inductive PendingRequest where
  | cityLookup
  | geoPosition
  | coordLookup
  | insightGen
deriving DecidableEq, Repr

/-- The state hooks of the App component, plus the in-flight requests. -/
structure AppState where
  city : String
  weather : Option WeatherData
  insight : Option GeminiInsight
  loading : Bool
  aiLoading : Bool
  error : Option String
  pending : List PendingRequest
deriving DecidableEq, Repr

/-- The initial hook values. -/
def initialState : AppState :=
  { city := "", weather := none, insight := none, loading := false,
    aiLoading := false, error := none, pending := [] }

/-- App.tsx line 8: the OpenWeather key is the environment value if it is
a non-empty string, otherwise the hard-coded fallback literal. -/
def appApiKey (env : Option String) : String :=
  match env with
  | none => "072b5fb1fa34faa84a90bd9c35785838"
  | some k => if k = "" then "072b5fb1fa34faa84a90bd9c35785838" else k

/-- Deployment environment of one app instance: the OpenWeather
environment variable and whether the browser exposes geolocation. -/
structure Config where
  openWeatherEnvKey : Option String
  geolocationSupported : Bool

/-- The events that drive the App state machine. -/
inductive Event where
  | setCityInput (value : String)
  | submitSearch
  | clickUseLocation
  | resolveCityLookup (result : Except String WeatherData)
  | geoPositionSuccess
  | geoPositionFailure
  | resolveCoordsLookup (result : Except String WeatherData)
  | clickGetInsight
  | resolveInsight (result : Except String GeminiInsight)
deriving DecidableEq, Repr

/-- JavaScript's `a || b` fallback on the caught error message. -/
def jsFallback (msg fallback : String) : String :=
  if msg = "" then fallback else msg

/-- JavaScript's `String.prototype.trim`: strip leading and trailing
whitespace. -/
def jsTrim (s : String) : String :=
  String.mk (((s.data.dropWhile Char.isWhitespace).reverse.dropWhile Char.isWhitespace).reverse)

/-- One synchronous block of App.tsx.  Handler events mirror the handler
code up to its first await; resolve events mirror the corresponding
then/catch/finally continuation and require a matching pending request. -/
def step (cfg : Config) (s : AppState) (e : Event) : Option AppState :=
  match e with
  | .setCityInput v => some { s with city := v }
  | .submitSearch =>
      if jsTrim s.city = "" then some s
      else if appApiKey cfg.openWeatherEnvKey = "" then
        some { s with error := some "Configuration Error: OPENWEATHER_API_KEY is missing." }
      else
        some { s with loading := true, error := none, insight := none,
                      pending := PendingRequest.cityLookup :: s.pending }
  | .resolveCityLookup result =>
      if PendingRequest.cityLookup ∈ s.pending then
        let s1 := { s with pending := s.pending.erase PendingRequest.cityLookup }
        match result with
        | .ok data => some { s1 with weather := some data, loading := false }
        | .error msg =>
            some { s1 with error := some (jsFallback msg "Failed to fetch weather"),
                           weather := none, loading := false }
      else none
  | .clickUseLocation =>
      if appApiKey cfg.openWeatherEnvKey = "" then
        some { s with error := some "Configuration Error: OPENWEATHER_API_KEY is missing." }
      else if cfg.geolocationSupported = false then
        some { s with error := some "Geolocation is not supported by your browser" }
      else
        some { s with loading := true, error := none, insight := none,
                      pending := PendingRequest.geoPosition :: s.pending }
  | .geoPositionSuccess =>
      if PendingRequest.geoPosition ∈ s.pending then
        some { s with pending :=
                 PendingRequest.coordLookup :: s.pending.erase PendingRequest.geoPosition }
      else none
  | .geoPositionFailure =>
      if PendingRequest.geoPosition ∈ s.pending then
        some { s with pending := s.pending.erase PendingRequest.geoPosition,
                      error := some "Unable to retrieve your location", loading := false }
      else none
  | .resolveCoordsLookup result =>
      if PendingRequest.coordLookup ∈ s.pending then
        let s1 := { s with pending := s.pending.erase PendingRequest.coordLookup }
        match result with
        | .ok data =>
            some { s1 with weather := some data,
                           city := if data.name = "" then s1.city else data.name,
                           loading := false }
        | .error msg =>
            some { s1 with error := some (jsFallback msg "Failed to fetch weather from location"),
                           loading := false }
      else none
  | .clickGetInsight =>
      match s.weather with
      | none => some s
      | some _ =>
          some { s with aiLoading := true,
                        pending := PendingRequest.insightGen :: s.pending }
  | .resolveInsight result =>
      if PendingRequest.insightGen ∈ s.pending then
        let s1 := { s with pending := s.pending.erase PendingRequest.insightGen }
        match result with
        | .ok data => some { s1 with insight := some data, aiLoading := false }
        | .error _ => some { s1 with aiLoading := false }
      else none

/-- Run a sequence of events from a state. -/
def runApp (cfg : Config) (s : AppState) : List Event → Option AppState
  | [] => some s
  | e :: rest =>
      match step cfg s e with
      | some s1 => runApp cfg s1 rest
      | none => none

/-- The events that start a request from a user action. -/
def Event.isUserStart : Event → Bool
  | .submitSearch => true
  | .clickUseLocation => true
  | .clickGetInsight => true
  | _ => false

/-- States reachable when requests never overlap: a user action that can
start a request fires only while nothing is pending (each request
resolves before the next user action). -/
inductive SeqReachable (cfg : Config) : AppState → Prop where
  | init : SeqReachable cfg initialState
  | next (s s1 : AppState) (e : Event) : SeqReachable cfg s →
      (e.isUserStart = true → s.pending = []) →
      step cfg s e = some s1 → SeqReachable cfg s1

/-- A fixed deployment used for concrete runs: no environment key
(the fallback literal applies), geolocation available. -/
def cfg0 : Config := { openWeatherEnvKey := none, geolocationSupported := true }

/-- A state with one city-name lookup in flight. -/
def pendingCityState : AppState :=
  { initialState with loading := true, pending := [.cityLookup] }

/-- A state displaying the London snapshot with one coordinate lookup in
flight. -/
def pendingCoordState : AppState :=
  { initialState with
    weather := some londonWeather, loading := true, pending := [.coordLookup] }

/-- The inductive invariant maintained under sequential execution: an
insight only together with a weather snapshot, an in-flight insight request
only with a weather snapshot, an in-flight lookup only with the insight
already cleared, and at most one request pending. -/
def SeqInv (s : AppState) : Prop :=
  (s.insight.isSome = true → s.weather.isSome = true) ∧
  (PendingRequest.insightGen ∈ s.pending → s.weather.isSome = true) ∧
  ((PendingRequest.cityLookup ∈ s.pending ∨ PendingRequest.geoPosition ∈ s.pending ∨
      PendingRequest.coordLookup ∈ s.pending) → s.insight = none) ∧
  s.pending.length ≤ 1

/-- State after typing Paris. -/
def seqSt1 : AppState :=
  (step cfg0 initialState (.setCityInput "Paris")).getD initialState

/-- State after submitting the search. -/
def seqSt2 : AppState :=
  (step cfg0 seqSt1 .submitSearch).getD initialState

/-- State after the lookup succeeds with the London snapshot. -/
def seqSt3 : AppState :=
  (step cfg0 seqSt2 (.resolveCityLookup (.ok londonWeather))).getD initialState

/-- State after requesting an insight. -/
def seqSt4 : AppState :=
  (step cfg0 seqSt3 .clickGetInsight).getD initialState

/-- State after the insight resolves. -/
def seqSt5 : AppState :=
  (step cfg0 seqSt4 (.resolveInsight (.ok sampleInsight))).getD initialState

/-! ## C1 / C5 — HTTP status mapping of the weather client -/

/-- C1: the status mapping is lookup-path dependent exactly at 404.  With a
key present, a 404 on the city-name path yields the city-not-found error
while on the coordinate path it falls through to the generic provider error
with the status text; any other non-success, non-401 status yields the same
generic provider error on both paths. -/
theorem status_404_path_dependent
    (city apiKey : String) (lat lon : Int) (r : HttpResponse) (hk : apiKey ≠ "") :
    (r.status = 404 →
      getWeatherByCity city apiKey r = .error "City not found. Please try again." ∧
      getWeatherByCoords lat lon apiKey r = .error ("Weather API Error: " ++ r.statusText)) ∧
    (r.ok = false → r.status ≠ 404 → r.status ≠ 401 →
      getWeatherByCity city apiKey r = .error ("Weather API Error: " ++ r.statusText) ∧
      getWeatherByCoords lat lon apiKey r = .error ("Weather API Error: " ++ r.statusText)) := by
  constructor
  · intro h404
    have hok : r.ok = false := by simp [HttpResponse.ok, h404]
    simp [getWeatherByCity, getWeatherByCoords, hk, hok, h404]
  · intro hok h404 h401
    simp [getWeatherByCity, getWeatherByCoords, hk, hok, h404, h401]

/-- C1 witness: concrete 404 and 500 responses. -/
theorem status_404_path_dependent_witness :
    getWeatherByCity "London" "key" ⟨404, "Not Found", londonWeather⟩
      = .error "City not found. Please try again." ∧
    getWeatherByCoords 51 0 "key" ⟨404, "Not Found", londonWeather⟩
      = .error ("Weather API Error: " ++ "Not Found") ∧
    getWeatherByCity "London" "key" ⟨500, "Internal Server Error", londonWeather⟩
      = .error ("Weather API Error: " ++ "Internal Server Error") ∧
    getWeatherByCoords 51 0 "key" ⟨500, "Internal Server Error", londonWeather⟩
      = .error ("Weather API Error: " ++ "Internal Server Error") := by
  have h404 := (status_404_path_dependent "London" "key" 51 0
    ⟨404, "Not Found", londonWeather⟩ (by decide)).1 rfl
  have h500 := (status_404_path_dependent "London" "key" 51 0
    ⟨500, "Internal Server Error", londonWeather⟩ (by decide)).2 (by decide) (by decide) (by decide)
  exact ⟨h404.1, h404.2, h500.1, h500.2⟩

/-- C5: with a key present, a 401 yields the invalid-credentials error on
both lookup paths, never the generic provider error. -/
theorem status_401_invalid_credentials
    (city apiKey : String) (lat lon : Int) (r : HttpResponse)
    (hk : apiKey ≠ "") (h401 : r.status = 401) :
    getWeatherByCity city apiKey r = .error "Invalid OpenWeather API Key." ∧
    getWeatherByCoords lat lon apiKey r = .error "Invalid OpenWeather API Key." := by
  have hok : r.ok = false := by simp [HttpResponse.ok, h401]
  simp [getWeatherByCity, getWeatherByCoords, hk, hok, h401]

/-- C5 witness: a concrete 401 response. -/
theorem status_401_invalid_credentials_witness :
    getWeatherByCity "London" "key" ⟨401, "Unauthorized", londonWeather⟩
      = .error "Invalid OpenWeather API Key." ∧
    getWeatherByCoords 51 0 "key" ⟨401, "Unauthorized", londonWeather⟩
      = .error "Invalid OpenWeather API Key." :=
  status_401_invalid_credentials "London" "key" 51 0
    ⟨401, "Unauthorized", londonWeather⟩ (by decide) rfl

/-! ## C3 / C6 / C9 — error taxonomy of the insight generator -/

/-- C3 counterexample: with the client present, an empty or absent response
body does not surface a distinct empty-response outcome to the caller — the
caller receives exactly the fixed generation-failure message, equal to what a
rejected (call-level-failed) call produces, and not the internal no-response
message. -/
theorem insight_empty_response_counterexample :
    (generateWeatherInsight (some ()) londonWeather (.resolves none) stubParse).result
      = .error "Failed to generate AI insight." ∧
    (generateWeatherInsight (some ()) londonWeather (.resolves (some "")) stubParse).result
      = .error "Failed to generate AI insight." ∧
    (generateWeatherInsight (some ()) londonWeather (.resolves none) stubParse).result
      ≠ .error "No response from Gemini" ∧
    (generateWeatherInsight (some ()) londonWeather (.resolves none) stubParse).result
      = (generateWeatherInsight (some ()) londonWeather
          (.rejects "network failure") stubParse).result := by
  decide

/-- C3 (amended): an empty or absent response body raises the internal
no-response error, which the surrounding catch rewraps — the caller receives
the fixed generation-failure message, indistinguishable from call-level
failures, and the empty-body cause appears only in the log. -/
theorem insight_empty_response_rewrapped (w : WeatherData)
    (p : String → Except String GeminiInsight) (call : GenerateContentResult)
    (h : call = .resolves none ∨ call = .resolves (some "")) :
    generateWeatherInsight (some ()) w call p
      = ⟨.error "Failed to generate AI insight.",
         ["Gemini Insight Error: " ++ "No response from Gemini"]⟩ := by
  rcases h with h | h <;> subst h <;> rfl

/-- C3 amended witness: the absent-body case at concrete inputs. -/
theorem insight_empty_response_rewrapped_witness :
    generateWeatherInsight (some ()) londonWeather (.resolves none) stubParse
      = ⟨.error "Failed to generate AI insight.",
         ["Gemini Insight Error: " ++ "No response from Gemini"]⟩ :=
  insight_empty_response_rewrapped londonWeather stubParse (.resolves none) (Or.inl rfl)

/-- C6: every call-level failure — a rejected call, or a parse failure on a
non-empty body — yields the fixed generation-failure message to the caller
while the original cause goes only to the log. -/
theorem insight_call_failure_wrapped (w : WeatherData) (cause t pmsg : String)
    (p : String → Except String GeminiInsight) (ht : t ≠ "") (hp : p t = .error pmsg) :
    generateWeatherInsight (some ()) w (.rejects cause) p
      = ⟨.error "Failed to generate AI insight.", ["Gemini Insight Error: " ++ cause]⟩ ∧
    generateWeatherInsight (some ()) w (.resolves (some t)) p
      = ⟨.error "Failed to generate AI insight.", ["Gemini Insight Error: " ++ pmsg]⟩ := by
  constructor
  · rfl
  · simp [generateWeatherInsight, insightTryBody, ht, hp]

/-- C6 witness: a concrete rejected call and a concrete parse failure. -/
theorem insight_call_failure_wrapped_witness :
    generateWeatherInsight (some ()) londonWeather (.rejects "network failure") stubParse
      = ⟨.error "Failed to generate AI insight.",
         ["Gemini Insight Error: " ++ "network failure"]⟩ ∧
    generateWeatherInsight (some ()) londonWeather (.resolves (some "nonsense")) stubParse
      = ⟨.error "Failed to generate AI insight.",
         ["Gemini Insight Error: " ++ "Unexpected token"]⟩ :=
  insight_call_failure_wrapped londonWeather "network failure" "nonsense"
    "Unexpected token" stubParse (by decide) rfl

/-- C9: with no client, the missing-key error is produced before the
try-block — the caller sees it unwrapped and nothing is logged; with the
client present, every failing outcome carries the single fixed
generation-failure message, so empty-body, network, provider and parse
failures are indistinguishable to the caller. -/
theorem insight_config_unwrapped_failures_uniform (w : WeatherData)
    (call : GenerateContentResult) (p : String → Except String GeminiInsight) :
    (generateWeatherInsight none w call p
       = ⟨.error "Gemini API Key is missing. Insight features are disabled.", []⟩) ∧
    (∀ msg, (generateWeatherInsight (some ()) w call p).result = .error msg →
       msg = "Failed to generate AI insight.") := by
  refine ⟨rfl, ?_⟩
  intro msg h
  cases htb : insightTryBody call p with
  | ok i => simp [generateWeatherInsight, htb] at h
  | error c => simp [generateWeatherInsight, htb] at h; exact h.symm

/-- C9 witness: the missing-client case, and one wrapped failure. -/
theorem insight_config_unwrapped_witness :
    generateWeatherInsight none londonWeather (.rejects "boom") stubParse
      = ⟨.error "Gemini API Key is missing. Insight features are disabled.", []⟩ ∧
    "Failed to generate AI insight." = "Failed to generate AI insight." := by
  have h := insight_config_unwrapped_failures_uniform londonWeather (.rejects "boom") stubParse
  exact ⟨h.1, h.2 "Failed to generate AI insight." (by decide)⟩

/-! ## C7 / C8 / C10 — frame conditions of the UI handlers -/

/-- C7: submitting the search form while the city input is empty or
whitespace-only changes nothing — no request is issued (pending is part of
the state) and every field keeps its value. -/
theorem empty_city_submit_noop (cfg : Config) (s : AppState) (h : jsTrim s.city = "") :
    step cfg s .submitSearch = some s := by
  simp [step, h]

/-- C7 witness: a whitespace-only city input. -/
theorem empty_city_submit_noop_witness :
    step cfg0 { initialState with city := " \t " } .submitSearch
      = some { initialState with city := " \t " } :=
  empty_city_submit_noop cfg0 { initialState with city := " \t " } (by decide)

/-- C8: invoking the insight handler while no weather snapshot is held
returns at once — no AI request is issued and the state is unchanged. -/
theorem insight_without_weather_noop (cfg : Config) (s : AppState)
    (h : s.weather = none) :
    step cfg s .clickGetInsight = some s := by
  simp [step, h]

/-- C8 witness: the initial state holds no weather. -/
theorem insight_without_weather_noop_witness :
    step cfg0 initialState .clickGetInsight = some initialState :=
  insight_without_weather_noop cfg0 initialState rfl

/-- C10: a successful coordinate lookup whose snapshot has a non-empty name
overwrites the city input with that name, while the city-name path — both
its submit step and its resolution — never changes the city input. -/
theorem coords_success_sets_city (cfg : Config) (s s1 : AppState) (d : WeatherData)
    (r : Except String WeatherData) :
    (step cfg s (.resolveCoordsLookup (.ok d)) = some s1 → d.name ≠ "" →
      s1.city = d.name) ∧
    (step cfg s (.resolveCityLookup r) = some s1 → s1.city = s.city) ∧
    (step cfg s .submitSearch = some s1 → s1.city = s.city) := by
  refine ⟨?_, ?_, ?_⟩
  · intro h hname
    simp only [step] at h
    split at h
    · simp only [Option.some.injEq] at h
      subst h
      simp [hname]
    · cases h
  · intro h
    simp only [step] at h
    split at h
    · cases r with
      | ok d2 => simp only [Option.some.injEq] at h; subst h; rfl
      | error msg => simp only [Option.some.injEq] at h; subst h; rfl
    · cases h
  · intro h
    simp only [step] at h
    split at h
    · simp only [Option.some.injEq] at h; subst h; rfl
    · split at h
      · simp only [Option.some.injEq] at h; subst h; rfl
      · simp only [Option.some.injEq] at h; subst h; rfl

/-- C10 witness: the London snapshot arriving on the coordinate path renames
the city input, and a city-path resolution leaves it alone. -/
theorem coords_success_sets_city_witness :
    ((step cfg0 pendingCoordState (.resolveCoordsLookup (.ok londonWeather))).getD
        initialState).city = londonWeather.name ∧
    ((step cfg0 pendingCityState (.resolveCityLookup (.ok londonWeather))).getD
        initialState).city = pendingCityState.city := by
  constructor
  · exact (coords_success_sets_city cfg0 pendingCoordState
      ((step cfg0 pendingCoordState (.resolveCoordsLookup (.ok londonWeather))).getD
        initialState) londonWeather (.ok londonWeather)).1 (by decide) (by decide)
  · exact (coords_success_sets_city cfg0 pendingCityState
      ((step cfg0 pendingCityState (.resolveCityLookup (.ok londonWeather))).getD
        initialState) londonWeather (.ok londonWeather)).2.1 (by decide)

/-! ## C2 — what a failing lookup does to the displayed weather -/

/-- C2 counterexample: a failing coordinate lookup does not clear a
previously displayed snapshot.  After a successful location lookup shows
London, a second location lookup failing with a provider error leaves the
London snapshot in state while showing the error message. -/
theorem lookup_failure_keeps_weather_counterexample :
    (runApp cfg0 initialState
      [.clickUseLocation, .geoPositionSuccess, .resolveCoordsLookup (.ok londonWeather),
       .clickUseLocation, .geoPositionSuccess,
       .resolveCoordsLookup (.error "Weather API Error: Internal Server Error")]).map
        (fun s => (s.weather, s.error))
      = some (some londonWeather, some "Weather API Error: Internal Server Error") := by
  decide

/-- C2 (amended): a failing city-name lookup clears the displayed snapshot
and shows the failure as one error message; a failing coordinate lookup
shows the failure as one error message but leaves any previously displayed
snapshot in place. -/
theorem lookup_failure_error_display (cfg : Config) (s s1 : AppState) (msg : String) :
    (step cfg s (.resolveCityLookup (.error msg)) = some s1 →
      s1.weather = none ∧ s1.error = some (jsFallback msg "Failed to fetch weather")) ∧
    (step cfg s (.resolveCoordsLookup (.error msg)) = some s1 →
      s1.weather = s.weather ∧
      s1.error = some (jsFallback msg "Failed to fetch weather from location")) := by
  constructor
  · intro h
    simp only [step] at h
    split at h
    · simp only [Option.some.injEq] at h; subst h; exact ⟨rfl, rfl⟩
    · cases h
  · intro h
    simp only [step] at h
    split at h
    · simp only [Option.some.injEq] at h; subst h; exact ⟨rfl, rfl⟩
    · cases h

/-- C2 amended witness: concrete failing resolutions on both paths. -/
theorem lookup_failure_error_display_witness :
    (((step cfg0 pendingCityState (.resolveCityLookup (.error "boom"))).getD
        initialState).weather = none ∧
     ((step cfg0 pendingCityState (.resolveCityLookup (.error "boom"))).getD
        initialState).error = some (jsFallback "boom" "Failed to fetch weather")) ∧
    (((step cfg0 pendingCoordState (.resolveCoordsLookup (.error "oops"))).getD
        initialState).weather = pendingCoordState.weather ∧
     ((step cfg0 pendingCoordState (.resolveCoordsLookup (.error "oops"))).getD
        initialState).error
       = some (jsFallback "oops" "Failed to fetch weather from location")) :=
  ⟨(lookup_failure_error_display cfg0 pendingCityState
      ((step cfg0 pendingCityState (.resolveCityLookup (.error "boom"))).getD
        initialState) "boom").1 (by decide),
   (lookup_failure_error_display cfg0 pendingCoordState
      ((step cfg0 pendingCoordState (.resolveCoordsLookup (.error "oops"))).getD
        initialState) "oops").2 (by decide)⟩

/-! ## C4 — the insight-presence invariant -/

/-- The fallback literal makes the App's OpenWeather key non-empty for
every environment. -/
lemma appApiKey_ne_empty (env : Option String) : appApiKey env ≠ "" := by
  cases env with
  | none => simp [appApiKey]
  | some k =>
      simp only [appApiKey]
      split
      · decide
      · assumption

/-- A member of a list of length at most one is the whole list. -/
lemma eq_singleton_of_mem_of_len_le_one {α : Type} (a : α) (l : List α)
    (h : a ∈ l) (hl : l.length ≤ 1) : l = [a] := by
  cases l with
  | nil => cases h
  | cons b t =>
      cases t with
      | nil => simp only [List.mem_singleton] at h; subst h; rfl
      | cons c u => simp at hl

/-- The initial state satisfies the invariant. -/
lemma seqInv_init : SeqInv initialState := by
  refine ⟨?_, ?_, ?_, ?_⟩ <;> simp [initialState, SeqInv]

/-- Every step taken under the sequential-execution condition preserves the
invariant. -/
lemma seqInv_step (cfg : Config) (s s1 : AppState) (e : Event)
    (inv : SeqInv s) (hseq : e.isUserStart = true → s.pending = [])
    (h : step cfg s e = some s1) : SeqInv s1 := by
  obtain ⟨i1, i2, i3, i4⟩ := inv
  cases e with
  | setCityInput v =>
      simp only [step, Option.some.injEq] at h
      subst h
      exact ⟨i1, i2, i3, i4⟩
  | submitSearch =>
      have hp : s.pending = [] := hseq rfl
      simp only [step] at h
      split at h
      · simp only [Option.some.injEq] at h; subst h; exact ⟨i1, i2, i3, i4⟩
      · split at h
        · simp only [Option.some.injEq] at h; subst h; exact ⟨i1, i2, i3, i4⟩
        · simp only [Option.some.injEq] at h; subst h
          refine ⟨?_, ?_, ?_, ?_⟩
          · intro hi; simp at hi
          · intro hm; rw [hp] at hm; simp at hm
          · intro _; rfl
          · rw [hp]; simp
  | clickUseLocation =>
      have hp : s.pending = [] := hseq rfl
      simp only [step] at h
      split at h
      · simp only [Option.some.injEq] at h; subst h; exact ⟨i1, i2, i3, i4⟩
      · split at h
        · simp only [Option.some.injEq] at h; subst h; exact ⟨i1, i2, i3, i4⟩
        · simp only [Option.some.injEq] at h; subst h
          refine ⟨?_, ?_, ?_, ?_⟩
          · intro hi; simp at hi
          · intro hm; rw [hp] at hm; simp at hm
          · intro _; rfl
          · rw [hp]; simp
  | resolveCityLookup result =>
      simp only [step] at h
      split at h
      case isTrue hmem =>
        have hp : s.pending = [.cityLookup] :=
          eq_singleton_of_mem_of_len_le_one _ _ hmem i4
        have hins : s.insight = none := i3 (Or.inl hmem)
        have herase : s.pending.erase PendingRequest.cityLookup = [] := by
          rw [hp]; simp
        cases result with
        | ok d =>
            simp only [Option.some.injEq] at h; subst h
            refine ⟨?_, ?_, ?_, ?_⟩
            · intro _; simp
            · intro hm; simp [herase] at hm
            · intro hm; simp [herase] at hm
            · simp [herase]
        | error msg =>
            simp only [Option.some.injEq] at h; subst h
            refine ⟨?_, ?_, ?_, ?_⟩
            · intro hi; simp [hins] at hi
            · intro hm; simp [herase] at hm
            · intro hm; simp [herase] at hm
            · simp [herase]
      case isFalse _ => cases h
  | geoPositionSuccess =>
      simp only [step] at h
      split at h
      case isTrue hmem =>
        have hp : s.pending = [.geoPosition] :=
          eq_singleton_of_mem_of_len_le_one _ _ hmem i4
        have hins : s.insight = none := i3 (Or.inr (Or.inl hmem))
        have herase : s.pending.erase PendingRequest.geoPosition = [] := by
          rw [hp]; simp
        simp only [Option.some.injEq] at h; subst h
        refine ⟨?_, ?_, ?_, ?_⟩
        · exact i1
        · intro hm; simp [herase] at hm
        · intro _; exact hins
        · simp [herase]
      case isFalse _ => cases h
  | geoPositionFailure =>
      simp only [step] at h
      split at h
      case isTrue hmem =>
        have hp : s.pending = [.geoPosition] :=
          eq_singleton_of_mem_of_len_le_one _ _ hmem i4
        have hins : s.insight = none := i3 (Or.inr (Or.inl hmem))
        have herase : s.pending.erase PendingRequest.geoPosition = [] := by
          rw [hp]; simp
        simp only [Option.some.injEq] at h; subst h
        refine ⟨?_, ?_, ?_, ?_⟩
        · exact i1
        · intro hm; simp [herase] at hm
        · intro hm; simp [herase] at hm
        · simp [herase]
      case isFalse _ => cases h
  | resolveCoordsLookup result =>
      simp only [step] at h
      split at h
      case isTrue hmem =>
        have hp : s.pending = [.coordLookup] :=
          eq_singleton_of_mem_of_len_le_one _ _ hmem i4
        have hins : s.insight = none := i3 (Or.inr (Or.inr hmem))
        have herase : s.pending.erase PendingRequest.coordLookup = [] := by
          rw [hp]; simp
        cases result with
        | ok d =>
            simp only [Option.some.injEq] at h; subst h
            refine ⟨?_, ?_, ?_, ?_⟩
            · intro _; simp
            · intro hm; simp [herase] at hm
            · intro hm; simp [herase] at hm
            · simp [herase]
        | error msg =>
            simp only [Option.some.injEq] at h; subst h
            refine ⟨?_, ?_, ?_, ?_⟩
            · intro hi; simp [hins] at hi
            · intro hm; simp [herase] at hm
            · intro hm; simp [herase] at hm
            · simp [herase]
      case isFalse _ => cases h
  | clickGetInsight =>
      simp only [step] at h
      split at h
      case h_1 hw =>
        simp only [Option.some.injEq] at h; subst h; exact ⟨i1, i2, i3, i4⟩
      case h_2 w hw =>
        have hp : s.pending = [] := hseq rfl
        simp only [Option.some.injEq] at h; subst h
        refine ⟨?_, ?_, ?_, ?_⟩
        · intro _; simp [hw]
        · intro _; simp [hw]
        · intro hm; rw [hp] at hm; simp at hm
        · rw [hp]; simp
  | resolveInsight result =>
      simp only [step] at h
      split at h
      case isTrue hmem =>
        have hp : s.pending = [.insightGen] :=
          eq_singleton_of_mem_of_len_le_one _ _ hmem i4
        have hw : s.weather.isSome = true := i2 hmem
        have herase : s.pending.erase PendingRequest.insightGen = [] := by
          rw [hp]; simp
        cases result with
        | ok d =>
            simp only [Option.some.injEq] at h; subst h
            refine ⟨?_, ?_, ?_, ?_⟩
            · intro _; exact hw
            · intro hm; simp [herase] at hm
            · intro hm; simp [herase] at hm
            · simp [herase]
        | error msg =>
            simp only [Option.some.injEq] at h; subst h
            refine ⟨?_, ?_, ?_, ?_⟩
            · exact i1
            · intro hm; simp [herase] at hm
            · intro hm; simp [herase] at hm
            · simp [herase]
      case isFalse _ => cases h

/-- The invariant holds in every sequentially reachable state. -/
lemma seq_reachable_inv (cfg : Config) (s : AppState) (h : SeqReachable cfg s) :
    SeqInv s := by
  induction h with
  | init => exact seqInv_init
  | next s s1 e hs hseq hstep ih => exact seqInv_step cfg s s1 e ih hseq hstep

/-- C4 counterexample: the insight-presence invariant fails under the
interleaving the UI permits.  With London displayed, the user requests an
insight (request in flight, the button is enabled since nothing is
loading), then submits a new city search; the search fails and clears the
weather, after which the insight request resolves — reaching a state whose
stored insight is present while the weather is absent. -/
theorem insight_invariant_counterexample :
    (runApp cfg0 initialState
      [.setCityInput "Paris", .submitSearch, .resolveCityLookup (.ok londonWeather),
       .clickGetInsight, .submitSearch,
       .resolveCityLookup (.error "City not found. Please try again."),
       .resolveInsight (.ok sampleInsight)]).map
        (fun s => (s.insight, s.weather))
      = some (some sampleInsight, none) := by
  decide

/-- C4 (amended): every transition that starts a weather lookup — a search
submit with a non-blank city, or a location click with geolocation
available — sets the stored insight and error to empty before the request
resolves; and in every state reachable under sequential execution (a user
action that can start a request fires only while no request is pending) an
insight is present only together with a weather snapshot.  With overlapping
requests the invariant can fail, as the counterexample shows. -/
theorem insight_invariant_amended :
    (∀ cfg s, SeqReachable cfg s → s.insight.isSome = true → s.weather.isSome = true) ∧
    (∀ cfg s s1, jsTrim s.city ≠ "" → step cfg s .submitSearch = some s1 →
      s1.insight = none ∧ s1.error = none) ∧
    (∀ cfg s s1, cfg.geolocationSupported = true →
      step cfg s .clickUseLocation = some s1 → s1.insight = none ∧ s1.error = none) := by
  refine ⟨?_, ?_, ?_⟩
  · intro cfg s hreach hins
    exact (seq_reachable_inv cfg s hreach).1 hins
  · intro cfg s s1 hcity h
    simp [step, hcity, appApiKey_ne_empty cfg.openWeatherEnvKey] at h
    subst h
    exact ⟨rfl, rfl⟩
  · intro cfg s s1 hgeo h
    simp [step, hgeo, appApiKey_ne_empty cfg.openWeatherEnvKey] at h
    subst h
    exact ⟨rfl, rfl⟩

/-- C4 amended witness: a concrete sequential run in which the insight is
present indeed holds a weather snapshot, and a concrete lookup start clears
insight and error. -/
theorem insight_invariant_amended_witness :
    seqSt5.weather.isSome = true ∧ seqSt2.insight = none ∧ seqSt2.error = none := by
  have h0 : SeqReachable cfg0 initialState := .init
  have h1 : SeqReachable cfg0 seqSt1 :=
    .next initialState seqSt1 (.setCityInput "Paris") h0 (by decide) (by decide)
  have h2 : SeqReachable cfg0 seqSt2 :=
    .next seqSt1 seqSt2 .submitSearch h1 (by decide) (by decide)
  have h3 : SeqReachable cfg0 seqSt3 :=
    .next seqSt2 seqSt3 (.resolveCityLookup (.ok londonWeather)) h2 (by decide) (by decide)
  have h4 : SeqReachable cfg0 seqSt4 :=
    .next seqSt3 seqSt4 .clickGetInsight h3 (by decide) (by decide)
  have h5 : SeqReachable cfg0 seqSt5 :=
    .next seqSt4 seqSt5 (.resolveInsight (.ok sampleInsight)) h4 (by decide) (by decide)
  have hstart := insight_invariant_amended.2.1 cfg0 seqSt1 seqSt2 (by decide) (by decide)
  exact ⟨insight_invariant_amended.1 cfg0 seqSt5 h5 (by decide), hstart.1, hstart.2⟩

end WeatherApp
